import Mathlib

/- Verification of the feed-import subsystem of the megashop repository
   (the `FeedParser` and `ImportEngine` modules of package `importer`).
   Go functions are shallowly embedded as executable Lean definitions.
   Go strings are modelled as Lean strings; the concrete inputs used in
   the theorems are ASCII, where Go byte indexing and Lean character
   indexing coincide.  Randomness (uuid.New) is modelled by a counter
   threaded through the state: each draw yields a string distinct from
   every other draw, which is the only property the code relies on. -/

namespace Megashop

deriving instance DecidableEq for Except

/-- Whitespace test matching Go's unicode.IsSpace on the ASCII range
(space, tab, newline, carriage return, vertical tab, form feed). -/
def isSpaceGo (c : Char) : Bool :=
  c == ' ' || c == '\t' || c == '\n' || c == '\r' || c.toNat == 11 || c.toNat == 12

/-- ASCII lowercasing of a character list (Go strings.ToLower; the inputs in
scope are ASCII, where Char.toLower agrees with Go). -/
def lowerChars (cs : List Char) : List Char := cs.map Char.toLower

/-- Tests whether `needle` occurs at the head of `hay`. -/
def headMatches (needle hay : List Char) : Bool := needle == hay.take needle.length

/-- Substring occurrence on character lists (Go strings.Contains). -/
def containsSub (hay needle : List Char) : Bool :=
  (List.range (hay.length + 1)).any fun i => headMatches needle (hay.drop i)

/-- Index of the last occurrence of `needle` in `hay`, if any
(Go strings.LastIndex, with `none` for the Go sentinel -1). -/
def lastSubIdx (hay needle : List Char) : Option Nat :=
  ((List.range (hay.length + 1)).filter fun i => headMatches needle (hay.drop i)).getLast?

/-- Go strings.Contains on strings. -/
def strContains (hay needle : String) : Bool := containsSub hay.data needle.data

/-- Go strings.ToLower (ASCII fragment). -/
def strToLower (s : String) : String := ⟨lowerChars s.data⟩

/-- Go strings.ToUpper (ASCII fragment). -/
def strToUpper (s : String) : String := ⟨s.data.map Char.toUpper⟩

/-- Characters of a string with leading and trailing whitespace removed. -/
def trimChars (cs : List Char) : List Char :=
  ((cs.dropWhile isSpaceGo).reverse.dropWhile isSpaceGo).reverse

/-- Go strings.TrimSpace (ASCII whitespace). -/
def strTrim (s : String) : String := ⟨trimChars s.data⟩

/-- Tests whether `s` ends with the given string (Go strings.HasSuffix). -/
def strEndsWith (s tail : String) : Bool :=
  headMatches tail.data.reverse s.data.reverse

/-- Splitting worker: scans `hay` left to right, cutting at each
non-overlapping occurrence of `sep`; `cur` holds the current segment in
reverse.  Mirrors Go strings.Split for a non-empty separator.  The fuel
argument (seeded with the hay length, consumed once per character, so the
zero case is unreachable) keeps the recursion structural. -/
def splitSubAux (sep : List Char) : Nat → List Char → List Char → List (List Char)
  | _, [], cur => [cur.reverse]
  | 0, hay, cur => [cur.reverse ++ hay]
  | fuel + 1, c :: rest, cur =>
    if sep ≠ [] ∧ headMatches sep (c :: rest) then
      cur.reverse :: splitSubAux sep fuel (rest.drop (sep.length - 1)) []
    else
      splitSubAux sep fuel rest (c :: cur)

/-- Go strings.Split (non-empty separator). -/
def strSplit (s sep : String) : List String :=
  (splitSubAux sep.data s.data.length s.data []).map fun cs => ⟨cs⟩

/-- Go map assignment `m[k] = v` on an association-list record: replace the
binding for `k` if present, else append it. -/
def recUpsert (r : List (String × String)) (k v : String) : List (String × String) :=
  if r.any fun p => p.1 == k then
    r.map fun p => if p.1 == k then (k, v) else p
  else
    r ++ [(k, v)]

/-- Association-list lookup (first binding wins; keys are unique by
construction through recUpsert, mirroring a Go map). -/
def recFind (r : List (String × String)) (k : String) : Option String :=
  (r.find? fun p => p.1 == k).map Prod.snd

/- ━━━━━━━━━━━━━━━ FeedParser: XML ━━━━━━━━━━━━━━━ -/

/-- FeedParser.sanitizeXML: strip a UTF-8 byte-order mark (the bytes
EF BB BF, i.e. the character U+FEFF) and delete the control characters
matched by the Go regex `[\x00-\x08\x0B\x0C\x0E-\x1F]`. -/
def sanitizeXML (s : String) : String :=
  let cs := match s.data with
    | '﻿' :: rest => rest
    | other => other
  ⟨cs.filter fun c =>
    decide (¬ (c.toNat ≤ 8 ∨ c.toNat = 11 ∨ c.toNat = 12 ∨ (14 ≤ c.toNat ∧ c.toNat ≤ 31)))⟩

/-- FeedParser.fixPartialXML: cut the text after the last occurrence of the
closing item tag, but only when that occurrence starts past index 0 (the Go
test `lastClose > 0` also rejects an occurrence at index 0, not only the -1
missing sentinel); afterwards append a single `>` character when the trimmed
text does not already end in one.  Despite the Go comment "Close root tags",
no closing root element is ever appended. -/
def fixPartialXML (itemPath s : String) : String :=
  let closeTag := "</" ++ strToLower itemPath ++ ">"
  let s1 := match lastSubIdx (lowerChars s.data) closeTag.data with
    | some i => if i > 0 then ⟨s.data.take (i + closeTag.length)⟩ else s
    | none => s
  if ¬ strEndsWith (strTrim s1) ">" then s1 ++ ">" else s1

/-- Byte preprocessing performed by FeedParser.ParseXMLFull before decoding:
only sanitizeXML is applied; unlike previewXML, the full-parse path never
calls fixPartialXML. -/
def parseXMLFullBytes (s : String) : String := sanitizeXML s

/-- Tokens of the Go encoding/xml decoder that the traversal inspects. -/
inductive XmlTok where
  | startEl (name : String)
  | endEl (name : String)
  | chardata (s : String)
deriving DecidableEq, Repr

/-- Go strings.EqualFold (ASCII fragment). -/
def eqFold (a b : String) : Bool := strToLower a == strToLower b

/-- State of the depth-tracked token walk shared by previewXML and
ParseXMLFull: the element path from the root, whether the walk is inside an
item, the nesting depth at which the item element was entered, and the
record collected so far. -/
structure XmlSt where
  path : List String
  inItem : Bool
  itemDepth : Nat
  current : List (String × String)
deriving DecidableEq, Repr

/-- Initial traversal state of ParseXMLFull. -/
def xmlInit : XmlSt := ⟨[], false, 0, []⟩

/-- One token step of ParseXMLFull: entering an element matching the item
path starts a fresh record at the current depth; leaving the item element at
the depth it was entered emits the record; character data inside the item is
trimmed and, when non-empty, stored under the immediately enclosing tag. -/
def xmlStep (ip : String) (st : XmlSt) (t : XmlTok) : XmlSt × Option (List (String × String)) :=
  match t with
  | .startEl name =>
    let path := st.path ++ [name]
    if eqFold name ip then
      ({ path := path, inItem := true, itemDepth := path.length, current := [] }, none)
    else
      ({ st with path := path }, none)
  | .endEl name =>
    let emit : Bool := st.inItem && eqFold name ip && (st.path.length == st.itemDepth)
    let st1 : XmlSt := if emit then { st with inItem := false, current := [] } else st
    let st2 : XmlSt := if st1.path.length > 0 then { st1 with path := st1.path.dropLast } else st1
    (st2, if emit then some st.current else none)
  | .chardata s =>
    if st.inItem && decide (st.path.length > st.itemDepth) then
      let fieldName := st.path.getLastD ""
      let v := strTrim s
      if v ≠ "" then ({ st with current := recUpsert st.current fieldName v }, none)
      else (st, none)
    else (st, none)

/-- Folds the token walk over a token list, accumulating emitted records. -/
def xmlGo (ip : String) : List XmlTok → XmlSt → List (List (String × String)) →
    XmlSt × List (List (String × String))
  | [], st, acc => (st, acc)
  | t :: ts, st, acc =>
    let p := xmlStep ip st t
    xmlGo ip ts p.1 (match p.2 with | some r => acc ++ [r] | none => acc)

/-- Records for which the per-item callback of FeedParser.ParseXMLFull has
been invoked, in invocation order, during the walk of the given decoder
tokens — independent of whether the surrounding loop afterwards terminates
(see parseXMLFull below for the loop's fate at the end of the stream). -/
def parseXMLFullItems (ip : String) (toks : List XmlTok) : List (List (String × String)) :=
  (xmlGo ip toks xmlInit []).2

/-- Terminal state of the Go xml.Decoder token stream once the input is
exhausted.  Decoder.Token returns plain io.EOF only when no element is
still open; while the element stack is non-empty it converts its cached
io.EOF into the SyntaxError "unexpected EOF", and — the underlying error
being cached — every subsequent Token call returns that same error again. -/
inductive XmlTerm where
  | eof
  | stickyErr
deriving DecidableEq, Repr

/-- Number of elements still open after the given tokens (the decoder
enforces well-nested closings, so a simple depth count suffices for the
well-nested prefixes it delivers). -/
def xmlOpenDepth (toks : List XmlTok) : Nat :=
  toks.foldl
    (fun d t =>
      match t with
      | .startEl _ => d + 1
      | .endEl _ => d - 1
      | .chardata _ => d)
    0

/-- Terminal the decoder reaches after delivering `toks` when the input
ends: io.EOF when every opened element was closed, otherwise the persistent
"unexpected EOF" SyntaxError. -/
def xmlTermOf (toks : List XmlTok) : XmlTerm :=
  if xmlOpenDepth toks = 0 then .eof else .stickyErr

/-- Outcome of the FeedParser.ParseXMLFull token loop on a document whose
decoder delivers `toks` and then hits the end of the input.  The loop body
is `if err == io.EOF { break }; if err != nil { continue }`: on a clean
io.EOF it breaks and the function returns nil after the per-item callback
ran once per complete item; but a persistent decoder error is re-read by
`continue` on every iteration, so the loop never exits — the function does
not return, modelled as none. -/
def parseXMLFull (ip : String) (toks : List XmlTok) :
    Option (List (List (String × String))) :=
  match xmlTermOf toks with
  | .eof => some (parseXMLFullItems ip toks)
  | .stickyErr => none

/- ━━━━━━━━━━━━━━━ FeedParser: CSV ━━━━━━━━━━━━━━━ -/

/-- Line records produced by the Go encoding/csv reader on quote-free input:
split into lines, ignore blank lines, split each line on the delimiter.
(LazyQuotes and TrimLeadingSpace are immaterial for quote-free input without
leading spaces.) -/
def csvRawRecords (comma : Char) (data : String) : List (List String) :=
  ((strSplit data "\n").filter fun l => l ≠ "").map fun l => strSplit l (String.singleton comma)

/-- Go csv.Reader.ReadAll field-count enforcement: with the default
FieldsPerRecord = 0, the first record fixes the expected number of fields and
every later record with a different count is an ErrFieldCount error, which
ReadAll surfaces and ParseCSVFull returns. -/
def csvReadAll (comma : Char) (data : String) : Except String (List (List String)) :=
  match csvRawRecords comma data with
  | [] => .ok []
  | first :: rest =>
    if rest.all fun r => r.length == first.length then .ok (first :: rest)
    else .error "wrong number of fields"

/-- Record construction of ParseCSVFull: fields are zipped positionally with
the header row, dropping fields at positions beyond the header length. -/
def zipRecord (headers record : List String) : List (String × String) :=
  (record.zip headers).foldl (fun acc p => recUpsert acc p.2 p.1) []

/-- Records for which FeedParser.ParseCSVFull invokes the per-item callback:
the first row is always the header, every later row becomes a record keyed
by header name; a reader error aborts the parse. -/
def parseCSVFullItems (comma : Char) (data : String) :
    Except String (List (List (String × String))) :=
  match csvReadAll comma data with
  | .error e => .error e
  | .ok [] => .ok []
  | .ok (headers :: rows) => .ok (rows.map (zipRecord headers))

/- ━━━━━━━━━━━━━━━ Data model (internal/models) ━━━━━━━━━━━━━━━ -/

/-- Import modes declared in internal/models (and documented in the feeds
schema: create_update, create_only, update_only). -/
inductive ImportMode where
  | create_update
  | create_only
  | update_only
deriving DecidableEq, Repr

/-- Match keys declared in internal/models. -/
inductive MatchBy where
  | ean
  | sku
  | title
  | external_id
deriving DecidableEq, Repr

/-- Import statuses declared in internal/models (cancelled included). -/
inductive ImportStatus where
  | idle
  | running
  | completed
  | failed
  | cancelled
deriving DecidableEq, Repr

/-- FieldMapping from internal/models. -/
structure FieldMapping where
  sourceField : String := ""
  targetField : String := ""
  transformType : String := ""
  transformValue : String := ""
  defaultValue : String := ""
  isRequired : Bool := false
deriving DecidableEq, Repr

/-- FeedItem from internal/models; Go zero values are the defaults.  Prices
are modelled as rationals standing for the Go float64 values (the concrete
prices appearing in the theorems are exactly representable or rounded the
same way by both). -/
structure FeedItem where
  Title : String := ""
  Description : String := ""
  ShortDescription : String := ""
  Price : ℚ := 0
  RegularPrice : ℚ := 0
  SalePrice : ℚ := 0
  EAN : String := ""
  SKU : String := ""
  ExternalID : String := ""
  ImageURL : String := ""
  GalleryImages : List String := []
  CategoryPath : String := ""
  Brand : String := ""
  Manufacturer : String := ""
  StockStatus : String := ""
  StockQuantity : Int := 0
  AffiliateURL : String := ""
  ButtonText : String := ""
  DeliveryTime : String := ""
deriving DecidableEq, Repr

/-- The slice of models.Feed that the engine reads (feed.FieldMappings is a
JSON array in Go, unmarshalled into []FieldMapping inside mapItem; it is
modelled as the list directly). -/
structure Feed where
  id : String
  name : String := ""
  importMode : ImportMode := .create_update
  matchBy : MatchBy := .ean
  fieldMappings : List FieldMapping := []
deriving DecidableEq, Repr

/-- Counter block of models.ImportProgress written by the run goroutine. -/
structure Progress where
  processed : Nat := 0
  created : Nat := 0
  updated : Nat := 0
  skipped : Nat := 0
  errors : Nat := 0
deriving DecidableEq, Repr

/-- models.ImportHistory without the wall-clock fields (StartedAt,
FinishedAt and Duration are real time, outside the embedding). -/
structure ImportHistory where
  id : String
  feedId : String
  totalItems : Nat := 0
  processed : Nat := 0
  created : Nat := 0
  updated : Nat := 0
  skipped : Nat := 0
  errors : Nat := 0
  status : ImportStatus := .idle
  errorMessage : Option String := none
  triggeredBy : String := ""
deriving DecidableEq, Repr

/-- One row of the products table as written by createProduct/updateProduct.
SQL NULL produced by nullIfEmpty/nullIfZero is modelled by the empty string
or zero it replaces (a lookup by an empty key is guarded off in
findExistingProduct exactly as the NULL comparison never matches in SQL). -/
structure Product where
  id : String
  slug : String
  title : String
  description : String := ""
  shortDescription : String := ""
  price : ℚ := 0
  regularPrice : ℚ := 0
  salePrice : ℚ := 0
  ean : String := ""
  sku : String := ""
  externalId : String := ""
  imageUrl : String := ""
  galleryImages : List String := []
  categoryId : Option String := none
  categoryPath : String := ""
  brand : String := ""
  manufacturer : String := ""
  stockStatus : String := "instock"
  stockQuantity : Int := 0
  affiliateUrl : String := ""
  buttonText : String := ""
  deliveryTime : String := ""
  feedId : String := ""
  feedChecksum : String := ""
deriving DecidableEq, Repr

/-- One row of the categories table (product_count, recomputed wholesale by
updateCategoryCounts, carries no claim and is not modelled). -/
structure Category where
  id : String
  name : String
  slug : String
  parent : Option String
deriving DecidableEq, Repr

/-- Persistent store visible to one run: the products and categories tables,
the import_history table, and the single feed row the run touches
(status/last_error/total_products columns).  The uuid field is the draw
counter modelling uuid.New. -/
structure Catalog where
  products : List Product := []
  categories : List Category := []
  historyRows : List ImportHistory := []
  feedStatus : String := "idle"
  lastError : Option String := none
  totalProducts : Nat := 0
  uuid : Nat := 0
deriving DecidableEq, Repr

/-- Fresh uuid string for draw `n` (uuid.New().String()). -/
def uuidStr (n : Nat) : String := "uuid-" ++ toString n

/-- First eight characters of a fresh uuid for draw `n`
(uuid.New().String()[:8]); like the full uuid, distinct on every draw. -/
def uuidStr8 (n : Nat) : String := toString n

/-- Raw record handed to the per-item callback: parsed values are rendered to
strings (the engine reads them through fmt.Sprintf("%v", val)). -/
abbrev Raw : Type := List (String × String)

/- ━━━━━━━━━━━━━━━ MappingEngine ━━━━━━━━━━━━━━━ -/

/-- ImportEngine.getFieldValue: try each key as given and then lowercased,
returning the first hit, else the empty string. -/
def getFieldValue (raw : Raw) : List String → String
  | [] => ""
  | k :: rest =>
    match recFind raw k with
    | some v => v
    | none =>
      match recFind raw (strToLower k) with
      | some v => v
      | none => getFieldValue raw rest

/-- ImportEngine.applyTransform.  The regex transform compiles the Go pattern
before `|||` and substitutes the replacement after it; the Go regexp engine
is outside the embedding and no claim exercises it, so that branch is kept
as the identity on the value. -/
def applyTransform (value transformType transformValue : String) : String :=
  match transformType with
  | "trim" => strTrim value
  | "lowercase" => strToLower value
  | "uppercase" => strToUpper value
  | "regex" => value
  | "default" => if value = "" then transformValue else value
  | _ => value

/-- Numeric value of a digit list. -/
def digitsToNat (cs : List Char) : Nat :=
  cs.foldl (fun n c => n * 10 + (c.toNat - 48)) 0

/-- strconv.ParseFloat on the alphabet that survives parsePrice filtering
(digits and periods): at most one period with at least one digit parses as a
decimal; anything else is a parse error, which parsePrice turns into 0. -/
def parseFloatQ (s : String) : ℚ :=
  let cs := s.data
  if (cs.all fun c => c.isDigit || c == '.') &&
      ((cs.filter fun c => c == '.').length ≤ 1 : Bool) &&
      cs.any Char.isDigit then
    let ip := cs.takeWhile fun c => c != '.'
    let fp := (cs.dropWhile fun c => c != '.').drop 1
    mkRat (digitsToNat ip * 10 ^ fp.length + digitsToNat fp) (10 ^ fp.length)
  else 0

/-- ImportEngine.parsePrice: delete every character other than digits,
commas and periods (regex [^\d,.]), replace each comma by a period, then
strconv.ParseFloat with a failure yielding 0. -/
def parsePrice (value : String) : ℚ :=
  let filtered := value.data.filter fun c => c.isDigit || c == ',' || c == '.'
  let normalized := filtered.map fun c => if c == ',' then '.' else c
  parseFloatQ ⟨normalized⟩

/-- strconv.Atoi with a failure yielding 0 (the stock_quantity mapping
ignores the error). -/
def atoiInt (s : String) : Int :=
  match s.data with
  | [] => 0
  | '-' :: ds => if !ds.isEmpty && ds.all Char.isDigit then -(digitsToNat ds : Int) else 0
  | '+' :: ds => if !ds.isEmpty && ds.all Char.isDigit then (digitsToNat ds : Int) else 0
  | ds => if ds.all Char.isDigit then (digitsToNat ds : Int) else 0

/-- Target-field switch of ImportEngine.mapItem. -/
def setTargetField (item : FeedItem) (target value : String) : FeedItem :=
  match target with
  | "title" => { item with Title := value }
  | "description" => { item with Description := value }
  | "short_description" => { item with ShortDescription := value }
  | "price" => { item with Price := parsePrice value }
  | "regular_price" => { item with RegularPrice := parsePrice value }
  | "sale_price" => { item with SalePrice := parsePrice value }
  | "ean" => { item with EAN := value }
  | "sku" => { item with SKU := value }
  | "external_id" => { item with ExternalID := value }
  | "image_url" => { item with ImageURL := value }
  | "gallery_images" => { item with GalleryImages := strSplit value "|" }
  | "category" => { item with CategoryPath := value }
  | "brand" => { item with Brand := value }
  | "manufacturer" => { item with Manufacturer := value }
  | "stock_status" => { item with StockStatus := value }
  | "stock_quantity" => { item with StockQuantity := atoiInt value }
  | "affiliate_url" => { item with AffiliateURL := value }
  | "button_text" => { item with ButtonText := value }
  | "delivery_time" => { item with DeliveryTime := value }
  | _ => item

/-- One explicit mapping application: read the source field, substitute the
default when the value is empty, apply the transform, write the target. -/
def applyMapping (raw : Raw) (item : FeedItem) (m : FieldMapping) : FeedItem :=
  let value := getFieldValue raw [m.sourceField]
  let value := if value = "" ∧ m.defaultValue ≠ "" then m.defaultValue else value
  let value := applyTransform value m.transformType m.transformValue
  setTargetField item m.targetField value

/-- ImportEngine.mapItem: apply explicit mappings in order; when none are
configured, fall back to the heuristic alias lookup; reject (none) any
result with an empty title. -/
def mapItem (feed : Feed) (raw : Raw) : Option FeedItem :=
  let item : FeedItem := feed.fieldMappings.foldl (applyMapping raw) {}
  let item :=
    if feed.fieldMappings.length = 0 then
      { item with
        Title := getFieldValue raw ["PRODUCTNAME", "title", "name", "nazov"]
        Description := getFieldValue raw ["DESCRIPTION", "description", "popis"]
        Price := parsePrice (getFieldValue raw ["PRICE_VAT", "price", "cena"])
        EAN := getFieldValue raw ["EAN", "ean", "ean13", "gtin"]
        SKU := getFieldValue raw ["SKU", "sku", "ITEMGROUP_ID", "kod"]
        ImageURL := getFieldValue raw ["IMGURL", "image", "image_url", "img_url"]
        CategoryPath := getFieldValue raw ["CATEGORYTEXT", "category", "kategoria"]
        Brand := getFieldValue raw ["MANUFACTURER", "brand", "vyrobca"]
        AffiliateURL := getFieldValue raw ["URL", "url", "link"] }
    else item
  if item.Title = "" then none else some item

/- ━━━━━━━━━━━━━━━ ChangeDetector ━━━━━━━━━━━━━━━ -/

/-- Go fmt %.2f rendering of a rational: round to two decimals (ties to
even, as Go rounds a decimal tie), print with exactly two digits after the
period, with a sign for negative inputs.  Arithmetic is carried out on the
numerator and denominator: with n = |num| and d = den, the rounded
hundredth count is 100n/d adjusted by comparing twice the remainder with d
(remainder/d is the fractional part, so 2r > d means it exceeds one half). -/
def fmtF2 (q : ℚ) : String :=
  let n : Nat := q.num.natAbs
  let d : Nat := q.den
  let n0 : Nat := 100 * n / d
  let r : Nat := 100 * n % d
  let m : Nat :=
    if 2 * r > d then n0 + 1
    else if 2 * r < d then n0
    else if n0 % 2 = 0 then n0 else n0 + 1
  let whole := m / 100
  let cents := m % 100
  let centsStr := if cents < 10 then "0" ++ toString cents else toString cents
  (if q.num < 0 then "-" else "") ++ toString whole ++ "." ++ centsStr

/-- ImportEngine.calculateChecksum: the canonical concatenation
fmt.Sprintf with verbs %s|%s|%s|%.2f|%s|%s over Title, Description, EAN,
Price, ImageURL, CategoryPath.  The Go function returns the md5 hex digest
of exactly this string; the digest is a function of it, so the embedding
identifies a fingerprint with its canonical pre-hash string: fingerprint
equalities proved here transfer verbatim to the digests, and inequality
results are stated about the canonical string itself. -/
def checksumData (item : FeedItem) : String :=
  item.Title ++ "|" ++ item.Description ++ "|" ++ item.EAN ++ "|" ++ fmtF2 item.Price ++ "|" ++
    item.ImageURL ++ "|" ++ item.CategoryPath

/-- Fingerprint of an item (see checksumData). -/
def calculateChecksum (item : FeedItem) : String := checksumData item

/- ━━━━━━━━━━━━━━━ CategoryResolver ━━━━━━━━━━━━━━━ -/

/-- Diacritics replacement table of ImportEngine.generateSlug (each Go
ReplaceAll pair rewrites one lowercase character, so the map iteration order
is immaterial). -/
def slugReplace (c : Char) : Char :=
  match c with
  | 'á' | 'ä' => 'a'
  | 'č' => 'c'
  | 'ď' => 'd'
  | 'é' => 'e'
  | 'í' => 'i'
  | 'ĺ' | 'ľ' => 'l'
  | 'ň' => 'n'
  | 'ó' | 'ô' => 'o'
  | 'ŕ' => 'r'
  | 'š' => 's'
  | 'ť' => 't'
  | 'ú' => 'u'
  | 'ý' => 'y'
  | 'ž' => 'z'
  | c => c

/-- Characters kept by the slug regex [^a-z0-9]+ replacement. -/
def isSlugKeep (c : Char) : Bool :=
  decide ((97 ≤ c.toNat ∧ c.toNat ≤ 122) ∨ (48 ≤ c.toNat ∧ c.toNat ≤ 57))

/-- Replace every maximal run of non-kept characters by a single dash
(the regex ReplaceAllString of generateSlug). -/
def squashAux : Bool → List Char → List Char
  | _, [] => []
  | inRun, c :: cs =>
    if isSlugKeep c then c :: squashAux false cs
    else if inRun then squashAux true cs
    else '-' :: squashAux true cs

/-- Go strings.Trim(slug, "-"). -/
def trimDash (cs : List Char) : List Char :=
  ((cs.dropWhile fun c => c == '-').reverse.dropWhile fun c => c == '-').reverse

/-- ImportEngine.generateSlug: lowercase, replace Slovak diacritics, replace
non-alphanumeric runs by dashes, trim dashes, truncate to 200, then append
a dash plus the first eight characters of a FRESH uuid — so every call
returns a slug distinct from every other call, even on the same text. -/
def generateSlug (draw : Nat) (text : String) : String :=
  let s := strToLower text
  let cs := s.data.map slugReplace
  let cs := trimDash (squashAux false cs)
  let cs := cs.take 200
  (⟨cs⟩ : String) ++ "-" ++ uuidStr8 draw

/-- Path splitting of ImportEngine.getOrCreateCategory, verbatim: split on
the pipe, then twice a fallback guarded by len(parts) == 0 — a condition
strings.Split can never establish, since it never returns an empty slice. -/
def splitCategoryPath (categoryPath : String) : List String :=
  let parts := strSplit categoryPath "|"
  let parts := if parts.length = 0 then strSplit categoryPath " > " else parts
  let parts := if parts.length = 0 then strSplit categoryPath "/" else parts
  parts

/-- Per-segment body of the getOrCreateCategory loop: trim the segment, skip
it when empty, slugify it with a fresh uuid draw, look the slug up under the
current parent, insert a new row on a miss, and descend.  The Go guard
`categoryID != ""` is always true here because both branches produce a
non-empty id. -/
def catStep (acc : Catalog × Option String × String) (part : String) :
    Catalog × Option String × String :=
  let db := acc.1
  let parentID := acc.2.1
  let name := strTrim part
  if name = "" then acc
  else
    let slug := generateSlug db.uuid name
    let db := { db with uuid := db.uuid + 1 }
    match db.categories.find? fun c => c.slug == slug && c.parent == parentID with
    | some c => (db, some c.id, c.id)
    | none =>
      let cid := uuidStr db.uuid
      let db := { db with
        uuid := db.uuid + 1
        categories := db.categories ++
          [{ id := cid, name := name, slug := slug, parent := parentID }] }
      (db, some cid, cid)

/-- ImportEngine.getOrCreateCategory: consult the per-run cache keyed by the
original path string; otherwise split the path, walk the segments creating
missing nodes, cache and return the leaf id (none when no segment was
usable). -/
def getOrCreateCategory (cache : List (String × String)) (db : Catalog)
    (categoryPath : String) : Option String × List (String × String) × Catalog :=
  if categoryPath = "" then (none, cache, db)
  else
    match recFind cache categoryPath with
    | some cid => (some cid, cache, db)
    | none =>
      let parts := splitCategoryPath categoryPath
      let r := parts.foldl catStep (db, none, "")
      let db1 := r.1
      let lastID := r.2.2
      if lastID ≠ "" then (some lastID, recUpsert cache categoryPath lastID, db1)
      else (none, cache, db1)

/- ━━━━━━━━━━━━━━━ ImportEngine ━━━━━━━━━━━━━━━ -/

/-- ImportEngine.findExistingProduct: look up id and stored fingerprint by
the configured match field; an empty item key is never queried (and an SQL
NULL column never matches), and a miss leaves both results as the empty
string (the Go Scan error is ignored). -/
def findExistingProduct (db : Catalog) (feed : Feed) (item : FeedItem) : String × String :=
  match feed.matchBy with
  | .ean =>
    if item.EAN ≠ "" then
      match db.products.find? fun p => p.ean == item.EAN with
      | some p => (p.id, p.feedChecksum)
      | none => ("", "")
    else ("", "")
  | .sku =>
    if item.SKU ≠ "" then
      match db.products.find? fun p => p.sku == item.SKU with
      | some p => (p.id, p.feedChecksum)
      | none => ("", "")
    else ("", "")
  | .external_id =>
    if item.ExternalID ≠ "" then
      match db.products.find? fun p => p.externalId == item.ExternalID with
      | some p => (p.id, p.feedChecksum)
      | none => ("", "")
    else ("", "")
  | .title =>
    match db.products.find? fun p => p.title == item.Title with
    | some p => (p.id, p.feedChecksum)
    | none => ("", "")

/-- Go helper coalesce. -/
def coalesce (s dflt : String) : String := if s = "" then dflt else s

/-- ImportEngine.createProduct: draw a uuid for the id, slugify the title
(a second draw), insert the row. -/
def createProduct (feed : Feed) (db : Catalog) (item : FeedItem)
    (categoryID : Option String) (checksum : String) : Catalog :=
  let pid := uuidStr db.uuid
  let db := { db with uuid := db.uuid + 1 }
  let slug := generateSlug db.uuid item.Title
  let db := { db with uuid := db.uuid + 1 }
  { db with products := db.products ++
      [{ id := pid
         slug := slug
         title := item.Title
         description := item.Description
         shortDescription := item.ShortDescription
         price := item.Price
         regularPrice := item.RegularPrice
         salePrice := item.SalePrice
         ean := item.EAN
         sku := item.SKU
         externalId := item.ExternalID
         imageUrl := item.ImageURL
         galleryImages := item.GalleryImages
         categoryId := categoryID
         categoryPath := item.CategoryPath
         brand := item.Brand
         manufacturer := item.Manufacturer
         stockStatus := coalesce item.StockStatus "instock"
         stockQuantity := item.StockQuantity
         affiliateUrl := item.AffiliateURL
         buttonText := coalesce item.ButtonText "Kúpiť"
         deliveryTime := item.DeliveryTime
         feedId := feed.id
         feedChecksum := checksum }] }

/-- ImportEngine.updateProduct: overwrite every mapped column of the row
with the given id (id, slug and feed_id are not touched by the UPDATE). -/
def updateProduct (db : Catalog) (pid : String) (item : FeedItem)
    (categoryID : Option String) (checksum : String) : Catalog :=
  { db with products := db.products.map fun p =>
      if p.id == pid then
        { p with
          title := item.Title
          description := item.Description
          shortDescription := item.ShortDescription
          price := item.Price
          regularPrice := item.RegularPrice
          salePrice := item.SalePrice
          ean := item.EAN
          sku := item.SKU
          externalId := item.ExternalID
          imageUrl := item.ImageURL
          galleryImages := item.GalleryImages
          categoryId := categoryID
          categoryPath := item.CategoryPath
          brand := item.Brand
          manufacturer := item.Manufacturer
          stockStatus := coalesce item.StockStatus "instock"
          stockQuantity := item.StockQuantity
          affiliateUrl := item.AffiliateURL
          buttonText := coalesce item.ButtonText "Kúpiť"
          deliveryTime := item.DeliveryTime
          feedChecksum := checksum }
      else p }

/-- In-memory state owned by one run: the store connection, the per-run
category cache, and the progress counters. -/
structure RunState where
  db : Catalog
  cache : List (String × String) := []
  progress : Progress := {}
deriving DecidableEq, Repr

/-- ImportEngine.processItem: find an existing match, compute the new
fingerprint, skip unchanged matches, otherwise resolve the category and
update or create — without ever consulting feed.ImportMode.  The error
return mirrors the Go signature; store writes cannot fail in the model. -/
def processItem (feed : Feed) (rs : RunState) (item : FeedItem) : Except String RunState :=
  let fr := findExistingProduct rs.db feed item
  let existingID := fr.1
  let checksum := fr.2
  let newChecksum := calculateChecksum item
  if existingID ≠ "" ∧ checksum = newChecksum then
    .ok { rs with progress := { rs.progress with skipped := rs.progress.skipped + 1 } }
  else
    let cr :=
      if item.CategoryPath ≠ "" then getOrCreateCategory rs.cache rs.db item.CategoryPath
      else (none, rs.cache, rs.db)
    let categoryID := cr.1
    let cache := cr.2.1
    let db := cr.2.2
    if existingID ≠ "" then
      .ok { db := updateProduct db existingID item categoryID newChecksum
            cache := cache
            progress := { rs.progress with updated := rs.progress.updated + 1 } }
    else
      .ok { db := createProduct feed db item categoryID newChecksum
            cache := cache
            progress := { rs.progress with created := rs.progress.created + 1 } }

/-- Body of the processCallback closure of ImportEngine.Run after the stop
check: count the item processed, then map, validate and process it, feeding
exactly one of the created/updated/skipped/errors counters. -/
def processOne (feed : Feed) (rs : RunState) (raw : Raw) : RunState :=
  let rs := { rs with progress := { rs.progress with processed := rs.progress.processed + 1 } }
  match mapItem feed raw with
  | none => { rs with progress := { rs.progress with skipped := rs.progress.skipped + 1 } }
  | some item =>
    if item.Title = "" then
      { rs with progress := { rs.progress with errors := rs.progress.errors + 1 } }
    else if item.Price = 0 then
      { rs with progress := { rs.progress with errors := rs.progress.errors + 1 } }
    else
      match processItem feed rs item with
      | .ok rs' => rs'
      | .error _ =>
        { rs with progress := { rs.progress with errors := rs.progress.errors + 1 } }

/-- The processCallback closure of ImportEngine.Run: when the cooperative
stop flag is observed the sentinel error "import cancelled" is returned
before anything is counted; otherwise the item is processed. -/
def processCallback (stop : Bool) (feed : Feed) (rs : RunState) (raw : Raw) :
    Except String RunState :=
  if stop then .error "import cancelled" else .ok (processOne feed rs raw)

/-- Observation of the stop flag set by ImportEngine.Stop: the flag is read
once per callback; stopAfter = some k models a stop request that the k-th
callback (0-based) is the first to observe. -/
def stopObserved (stopAfter : Option Nat) (i : Nat) : Bool :=
  match stopAfter with
  | some k => decide (k ≤ i)
  | none => false

/-- The process traversal of ImportEngine.Run: the parser walks the items in
order invoking processCallback, stopping at the first callback error and
propagating it (the behavior of ParseXMLFull, ParseCSVFull and ParseJSONFull
alike on the already-counted item sequence). -/
def processLoop (feed : Feed) (stopAfter : Option Nat) :
    Nat → RunState → List Raw → RunState × Option String
  | _, rs, [] => (rs, none)
  | i, rs, raw :: rest =>
    match processCallback (stopObserved stopAfter i) feed rs raw with
    | .error msg => (rs, some msg)
    | .ok rs' => processLoop feed stopAfter (i + 1) rs' rest

/-- ImportEngine.saveHistory: INSERT with ON CONFLICT (id) DO UPDATE, i.e.
an upsert on the run id. -/
def saveHistory (db : Catalog) (h : ImportHistory) : Catalog :=
  if db.historyRows.any fun r => r.id == h.id then
    { db with historyRows := db.historyRows.map fun r => if r.id == h.id then h else r }
  else
    { db with historyRows := db.historyRows ++ [h] }

/-- ImportEngine.updateFeedStatus: set the feed row's status, last_error
(NULLIF on the empty string) and recomputed total_products. -/
def updateFeedStatus (feed : Feed) (db : Catalog) (status errMsg : String) : Catalog :=
  { db with feedStatus := status,
            lastError := if errMsg = "" then none else some errMsg,
            totalProducts := (db.products.filter fun p => p.feedId == feed.id).length }

/-- ImportEngine.completeImport: copy the final counters onto the history
row, set status completed, persist it, mark the feed active and recount
categories (the count column is outside the model). -/
def completeImport (feed : Feed) (hist : ImportHistory) (rs : RunState) :
    Option ImportHistory × Option String × Catalog :=
  let hist := { hist with
    processed := rs.progress.processed
    created := rs.progress.created
    updated := rs.progress.updated
    skipped := rs.progress.skipped
    errors := rs.progress.errors
    status := ImportStatus.completed }
  let db := saveHistory rs.db hist
  let db := updateFeedStatus feed db "active" ""
  (some hist, none, db)

/-- ImportEngine.failImport: record the error message on the history row,
set status failed, mark the feed errored, and return the message as the
run's error. -/
def failImport (feed : Feed) (hist : ImportHistory) (rs : RunState) (msg : String) :
    Option ImportHistory × Option String × Catalog :=
  let hist := { hist with status := ImportStatus.failed, errorMessage := some msg }
  let db := saveHistory rs.db hist
  let db := updateFeedStatus feed db "error" msg
  (some hist, some msg, db)

/-- ImportEngine.Run over an already-downloaded feed whose parser yields
`items` (the download itself is network I/O outside the embedding; its
failure path is not exercised by any claim).  Faithfully in order: the
re-entrancy guard first, before any store write; then the initial history
row and feed status; the count traversal (items.length — its callback only
increments the count); the process traversal with the cooperative stop; and
the final dispatch, where an error whose text does not contain "cancelled"
fails the run while everything else — the cancellation sentinel included —
flows into completeImport. -/
def runImport (feed : Feed) (triggeredBy : String) (items : List Raw)
    (stopAfter : Option Nat) (isRunning : Bool) (db : Catalog) :
    Option ImportHistory × Option String × Catalog :=
  if isRunning then (none, some "import already running", db)
  else
    let hid := uuidStr db.uuid
    let db := { db with uuid := db.uuid + 1 }
    let hist0 : ImportHistory :=
      { id := hid
        feedId := feed.id
        status := ImportStatus.running
        triggeredBy := triggeredBy }
    let db := saveHistory db hist0
    let db := updateFeedStatus feed db "running" ""
    let totalCount := items.length
    let hist := { hist0 with totalItems := totalCount }
    let rs0 : RunState := { db := db }
    let r := processLoop feed stopAfter 0 rs0 items
    let rs := r.1
    match r.2 with
    | some msg =>
      if ¬ strContains msg "cancelled" then failImport feed hist rs msg
      else completeImport feed hist rs
    | none => completeImport feed hist rs

/- ━━━━━━━━━━━━━━━ Concrete instances used by the theorems ━━━━━━━━━━━━━━━ -/

/-- Item used to exhibit the checksum short-circuit. -/
def c3item : FeedItem := { Title := "X", Price := 5 }

/-- Feed matching products by title. -/
def c3feed : Feed := { id := "f1", matchBy := .title }

/-- Catalog holding a product whose stored fingerprint equals the fingerprint
of c3item. -/
def c3db : Catalog :=
  { products := [{ id := "p1", slug := "x-slug", title := "X",
                   feedChecksum := calculateChecksum c3item }] }

/-- Common fields of the two items of the C6 counterexample. -/
def c6base : FeedItem :=
  { Title := "Widget", Description := "nice", EAN := "123", ImageURL := "img", CategoryPath := "cat" }

/-- Item priced 1.001. -/
def c6itemA : FeedItem := { c6base with Price := mkRat 1001 1000 }

/-- Item priced 1.004: a different price with the same %.2f rendering. -/
def c6itemB : FeedItem := { c6base with Price := mkRat 251 250 }

/-- Truncated XML document: the closing root tag is absent and the second
item is cut mid-content. -/
def c7doc : String := "<shop><item><a>1</a></item><item><b>2"

/-- Decoder tokens of the complete part of a truncated document. -/
def c7completeToks : List XmlTok :=
  [.startEl "shop", .startEl "item", .startEl "a", .chardata "1", .endEl "a", .endEl "item"]

/-- Decoder tokens of the trailing partial item (no closing item tag). -/
def c7tailToks : List XmlTok := [.startEl "item", .startEl "b", .chardata "2"]

/-- Feed in create_only mode. -/
def c2feedCreateOnly : Feed := { id := "f1", importMode := .create_only, matchBy := .title }

/-- Feed in update_only mode. -/
def c2feedUpdateOnly : Feed := { id := "f1", importMode := .update_only, matchBy := .title }

/-- Catalog with one product whose stored fingerprint differs from the
incoming item's. -/
def c2db : Catalog :=
  { products := [{ id := "p1", slug := "x-slug", title := "X", feedChecksum := "old" }] }

/-- Incoming item matching the stored product by title, with a changed price. -/
def c2item : FeedItem := { Title := "X", Price := 5 }

/-- Incoming item with no existing match. -/
def c2newItem : FeedItem := { Title := "Y", Price := 5 }

/-- Feed of the cancellation run. -/
def c1feed : Feed := { id := "f1", matchBy := .title }

/-- Three parsed raw items, each mapping to a valid product. -/
def c1items : List Raw :=
  [[("title", "A"), ("price", "10")],
   [("title", "B"), ("price", "10")],
   [("title", "C"), ("price", "10")]]

/-- Feed used by the counter-accounting witness. -/
def c10feed : Feed := { id := "f", matchBy := .title }

/-- Raw item used by the counter-accounting witness. -/
def c10raw : Raw := [("title", "T"), ("price", "10")]

/- ━━━━━━━━━━━━━━━ Helper lemmas ━━━━━━━━━━━━━━━ -/

/- ━━━━━━━━━━━━━━━ Claim theorems ━━━━━━━━━━━━━━━ -/

/-- C4: resolving "Electronics|Phones|Smartphones" against an empty catalog
creates exactly three category nodes, and a repeated resolution in the same
run is served from the cache with the same leaf id and no new nodes; but a
second run (fresh per-run cache over the same catalog) creates three MORE
nodes with a different leaf id, because every generated slug embeds a fresh
uuid fragment and the lookup by slug can therefore never match a node
created earlier.  This refutes the zero-additional-nodes part of the claim
at the failing input. -/
theorem c4_second_run_recreates_categories :
    (getOrCreateCategory [] {} "Electronics|Phones|Smartphones").2.2.categories.length = 3 ∧
    (let r1 := getOrCreateCategory [] {} "Electronics|Phones|Smartphones"
     let r2 := getOrCreateCategory r1.2.1 r1.2.2 "Electronics|Phones|Smartphones"
     r2.1 = r1.1 ∧ r2.2.2.categories.length = 3) ∧
    (let r1 := getOrCreateCategory [] {} "Electronics|Phones|Smartphones"
     let r3 := getOrCreateCategory [] r1.2.2 "Electronics|Phones|Smartphones"
     r3.2.2.categories.length = 6 ∧ r3.1 ≠ r1.1) := by
  decide

/-- C5: the category path splitter never reaches the " > " or "/" fallbacks:
strings.Split never returns an empty slice, so the guard len(parts) == 0 is
always false.  A path delimited by " > " therefore stays one segment and
produces a single category named by the whole path, although splitting on
" > " (what the claim prescribes) would give two segments. -/
theorem c5_split_fallback_dead :
    splitCategoryPath "Electronics > Phones" = ["Electronics > Phones"] ∧
    strSplit "Electronics > Phones" " > " = ["Electronics", "Phones"] ∧
    (getOrCreateCategory [] {} "Electronics > Phones").2.2.categories.map Category.name =
      ["Electronics > Phones"] ∧
    splitCategoryPath "A/B" = ["A/B"] := by
  decide

/-- C7: evaluation at the failing input, a document truncated mid-item with
the closing root tag absent.  The bytes ParseXMLFull hands to the decoder
are not repaired (fixPartialXML runs only on the preview path, and even it
appends no closing root tag, its "Close root tags" comment notwithstanding);
the per-item callback fires for the one complete item, but the root element
is still open when the input ends, so the decoder's terminal is the
persistent "unexpected EOF" SyntaxError — never io.EOF — and the traversal
loop never returns (none), instead of succeeding with the complete items as
the claim states.  A properly closed document, by contrast, ends in io.EOF
and does return the complete items. -/
theorem c7_truncated_xml_never_returns :
    parseXMLFullBytes c7doc = c7doc ∧
    fixPartialXML "item" c7doc = "<shop><item><a>1</a></item>" ∧
    strContains (fixPartialXML "item" c7doc) "</shop>" = false ∧
    parseXMLFullItems "item" (c7completeToks ++ c7tailToks) = [[("a", "1")]] ∧
    xmlTermOf (c7completeToks ++ c7tailToks) = XmlTerm.stickyErr ∧
    parseXMLFull "item" (c7completeToks ++ c7tailToks) = none ∧
    parseXMLFull "item" (c7completeToks ++ [XmlTok.endEl "shop"]) = some [[("a", "1")]] := by
  decide

/-- C8 counterexample: a data row with fewer fields than the header does not
yield a partial record — it makes the whole parse fail, because the csv
reader enforces the field count fixed by the header row. -/
theorem c8_short_row_fails_parse :
    parseCSVFullItems ';' "a;b;c\n1;2" = .error "wrong number of fields" := by
  decide

/-- C8 amended: the first row is always the header and each later row
becomes a record zipped positionally with it — but only when every data row
has exactly the header's field count; any row with a different count makes
ReadAll fail and the parse returns the error, so short rows are rejected
rather than tolerated. -/
theorem c8_header_zip_or_field_count_error (comma : Char) (data : String)
    (headers : List String) (rows : List (List String))
    (hrecs : csvRawRecords comma data = headers :: rows) :
    ((∀ r ∈ rows, r.length = headers.length) →
      parseCSVFullItems comma data = .ok (rows.map (zipRecord headers))) ∧
    ((∃ r ∈ rows, r.length ≠ headers.length) →
      parseCSVFullItems comma data = .error "wrong number of fields") := by
  constructor
  · intro hall
    have hA : (rows.all fun r => r.length == headers.length) = true := by
      rw [List.all_eq_true]
      intro r hr
      simpa using hall r hr
    simp [parseCSVFullItems, csvReadAll, hrecs, hA]
  · intro hbad
    rcases hbad with ⟨r, hr, hne⟩
    have hA : (rows.all fun r => r.length == headers.length) = false := by
      rw [Bool.eq_false_iff]
      intro hcontra
      rw [List.all_eq_true] at hcontra
      exact hne (by simpa using hcontra r hr)
    simp [parseCSVFullItems, csvReadAll, hrecs, hA]

/-- C8 witness: a uniform three-column file parses into header-keyed
records. -/
theorem c8_header_zip_witness :
    parseCSVFullItems ';' "a;b;c\n1;2;3" = .ok [[("a", "1"), ("b", "2"), ("c", "3")]] := by
  have h := (c8_header_zip_or_field_count_error ';' "a;b;c\n1;2;3"
    ["a", "b", "c"] [["1", "2", "3"]] (by decide)).1 (by decide)
  simpa using h

theorem checksumData_title_inj (i j : FeedItem)
    (hD : i.Description = j.Description) (hE : i.EAN = j.EAN)
    (hP : fmtF2 i.Price = fmtF2 j.Price) (hI : i.ImageURL = j.ImageURL)
    (hC : i.CategoryPath = j.CategoryPath)
    (h : checksumData i = checksumData j) : i.Title = j.Title := by
  have h' := congrArg String.data h
  simp only [checksumData, String.data_append, List.append_assoc, hD, hE, hP, hI, hC] at h'
  exact String.ext (List.append_cancel_right h')

theorem checksumData_description_inj (i j : FeedItem)
    (hT : i.Title = j.Title) (hE : i.EAN = j.EAN)
    (hP : fmtF2 i.Price = fmtF2 j.Price) (hI : i.ImageURL = j.ImageURL)
    (hC : i.CategoryPath = j.CategoryPath)
    (h : checksumData i = checksumData j) : i.Description = j.Description := by
  have h' := congrArg String.data h
  simp only [checksumData, String.data_append, List.append_assoc, hT, hE, hP, hI, hC] at h'
  have h1 := List.append_cancel_left h'
  have h2 := List.append_cancel_left h1
  exact String.ext (List.append_cancel_right h2)

theorem checksumData_ean_inj (i j : FeedItem)
    (hT : i.Title = j.Title) (hD : i.Description = j.Description)
    (hP : fmtF2 i.Price = fmtF2 j.Price) (hI : i.ImageURL = j.ImageURL)
    (hC : i.CategoryPath = j.CategoryPath)
    (h : checksumData i = checksumData j) : i.EAN = j.EAN := by
  have h' := congrArg String.data h
  simp only [checksumData, String.data_append, List.append_assoc, hT, hD, hP, hI, hC] at h'
  have h1 := List.append_cancel_left h'
  have h2 := List.append_cancel_left h1
  have h3 := List.append_cancel_left h2
  have h4 := List.append_cancel_left h3
  exact String.ext (List.append_cancel_right h4)

theorem checksumData_price_inj (i j : FeedItem)
    (hT : i.Title = j.Title) (hD : i.Description = j.Description) (hE : i.EAN = j.EAN)
    (hI : i.ImageURL = j.ImageURL) (hC : i.CategoryPath = j.CategoryPath)
    (h : checksumData i = checksumData j) : fmtF2 i.Price = fmtF2 j.Price := by
  have h' := congrArg String.data h
  simp only [checksumData, String.data_append, List.append_assoc, hT, hD, hE, hI, hC] at h'
  have h1 := List.append_cancel_left h'
  have h2 := List.append_cancel_left h1
  have h3 := List.append_cancel_left h2
  have h4 := List.append_cancel_left h3
  have h5 := List.append_cancel_left h4
  have h6 := List.append_cancel_left h5
  exact String.ext (List.append_cancel_right h6)

theorem checksumData_image_inj (i j : FeedItem)
    (hT : i.Title = j.Title) (hD : i.Description = j.Description) (hE : i.EAN = j.EAN)
    (hP : fmtF2 i.Price = fmtF2 j.Price) (hC : i.CategoryPath = j.CategoryPath)
    (h : checksumData i = checksumData j) : i.ImageURL = j.ImageURL := by
  have h' := congrArg String.data h
  simp only [checksumData, String.data_append, List.append_assoc, hT, hD, hE, hP, hC] at h'
  have h1 := List.append_cancel_left h'
  have h2 := List.append_cancel_left h1
  have h3 := List.append_cancel_left h2
  have h4 := List.append_cancel_left h3
  have h5 := List.append_cancel_left h4
  have h6 := List.append_cancel_left h5
  have h7 := List.append_cancel_left h6
  have h8 := List.append_cancel_left h7
  exact String.ext (List.append_cancel_right h8)

theorem checksumData_category_inj (i j : FeedItem)
    (hT : i.Title = j.Title) (hD : i.Description = j.Description) (hE : i.EAN = j.EAN)
    (hP : fmtF2 i.Price = fmtF2 j.Price) (hI : i.ImageURL = j.ImageURL)
    (h : checksumData i = checksumData j) : i.CategoryPath = j.CategoryPath := by
  have h' := congrArg String.data h
  simp only [checksumData, String.data_append, List.append_assoc, hT, hD, hE, hP, hI] at h'
  have h1 := List.append_cancel_left h'
  have h2 := List.append_cancel_left h1
  have h3 := List.append_cancel_left h2
  have h4 := List.append_cancel_left h3
  have h5 := List.append_cancel_left h4
  have h6 := List.append_cancel_left h5
  have h7 := List.append_cancel_left h6
  have h8 := List.append_cancel_left h7
  have h9 := List.append_cancel_left h8
  have h10 := List.append_cancel_left h9
  exact String.ext h10

/-- C6 counterexample: two items identical in the five string fields but
with different prices 1.001 and 1.004 have the same %.2f rendering "1.00",
hence the same canonical string and the same fingerprint — changing the
price field does not always change the fingerprint. -/
theorem c6_price_rounding_counterexample :
    c6itemA.Price ≠ c6itemB.Price ∧
    c6itemA.Title = c6itemB.Title ∧ c6itemA.Description = c6itemB.Description ∧
    c6itemA.EAN = c6itemB.EAN ∧ c6itemA.ImageURL = c6itemB.ImageURL ∧
    c6itemA.CategoryPath = c6itemB.CategoryPath ∧
    calculateChecksum c6itemA = calculateChecksum c6itemB := by
  decide

/-- C6 amended: calculateChecksum is deterministic — items agreeing on
title, description, EAN, price, image URL and category path have equal
fingerprints — and, for sensitivity, changing any single one of the five
string fields changes the canonical pre-hash string (hence the md5 digest
up to hash collisions), while changing the price changes the canonical
string exactly when its two-decimal rendering changes. -/
theorem c6_fingerprint_determinism_and_sensitivity :
    (∀ i j : FeedItem, i.Title = j.Title → i.Description = j.Description → i.EAN = j.EAN →
      i.Price = j.Price → i.ImageURL = j.ImageURL → i.CategoryPath = j.CategoryPath →
      calculateChecksum i = calculateChecksum j) ∧
    (∀ i j : FeedItem, i.Description = j.Description → i.EAN = j.EAN → i.Price = j.Price →
      i.ImageURL = j.ImageURL → i.CategoryPath = j.CategoryPath → i.Title ≠ j.Title →
      checksumData i ≠ checksumData j) ∧
    (∀ i j : FeedItem, i.Title = j.Title → i.EAN = j.EAN → i.Price = j.Price →
      i.ImageURL = j.ImageURL → i.CategoryPath = j.CategoryPath →
      i.Description ≠ j.Description → checksumData i ≠ checksumData j) ∧
    (∀ i j : FeedItem, i.Title = j.Title → i.Description = j.Description → i.Price = j.Price →
      i.ImageURL = j.ImageURL → i.CategoryPath = j.CategoryPath → i.EAN ≠ j.EAN →
      checksumData i ≠ checksumData j) ∧
    (∀ i j : FeedItem, i.Title = j.Title → i.Description = j.Description → i.EAN = j.EAN →
      i.Price = j.Price → i.CategoryPath = j.CategoryPath → i.ImageURL ≠ j.ImageURL →
      checksumData i ≠ checksumData j) ∧
    (∀ i j : FeedItem, i.Title = j.Title → i.Description = j.Description → i.EAN = j.EAN →
      i.Price = j.Price → i.ImageURL = j.ImageURL → i.CategoryPath ≠ j.CategoryPath →
      checksumData i ≠ checksumData j) ∧
    (∀ i j : FeedItem, i.Title = j.Title → i.Description = j.Description → i.EAN = j.EAN →
      i.ImageURL = j.ImageURL → i.CategoryPath = j.CategoryPath →
      fmtF2 i.Price ≠ fmtF2 j.Price → checksumData i ≠ checksumData j) := by
  refine ⟨?_, ?_, ?_, ?_, ?_, ?_, ?_⟩
  · intro i j hT hD hE hP hI hC
    simp [calculateChecksum, checksumData, hT, hD, hE, hP, hI, hC]
  · intro i j hD hE hP hI hC hT h
    exact hT (checksumData_title_inj i j hD hE (by rw [hP]) hI hC h)
  · intro i j hT hE hP hI hC hD h
    exact hD (checksumData_description_inj i j hT hE (by rw [hP]) hI hC h)
  · intro i j hT hD hP hI hC hE h
    exact hE (checksumData_ean_inj i j hT hD (by rw [hP]) hI hC h)
  · intro i j hT hD hE hP hC hI h
    exact hI (checksumData_image_inj i j hT hD hE (by rw [hP]) hC h)
  · intro i j hT hD hE hP hI hC h
    exact hC (checksumData_category_inj i j hT hD hE (by rw [hP]) hI h)
  · intro i j hT hD hE hI hC hP h
    exact hP (checksumData_price_inj i j hT hD hE hI hC h)

/-- C6 witness: the determinism and title-sensitivity components at
concrete items. -/
theorem c6_fingerprint_witness :
    calculateChecksum c6itemA = calculateChecksum c6itemA ∧
    checksumData { Title := "A" } ≠ checksumData { Title := "B" } :=
  ⟨c6_fingerprint_determinism_and_sensitivity.1 c6itemA c6itemA rfl rfl rfl rfl rfl rfl,
   c6_fingerprint_determinism_and_sensitivity.2.1 { Title := "A" } { Title := "B" }
     rfl rfl rfl rfl rfl (by decide)⟩

/-- C3: whenever the product matched by the configured match field exists
and its stored fingerprint equals the incoming item's computed fingerprint,
processItem increments only the skipped counter and leaves the run state —
the whole catalog (products, categories, history, feed row, uuid counter)
and the category cache — unchanged, for every feed, hence regardless of the
configured import mode. -/
theorem c3_checksum_short_circuit (feed : Feed) (rs : RunState) (item : FeedItem)
    (hmatch : (findExistingProduct rs.db feed item).1 ≠ "")
    (hsum : (findExistingProduct rs.db feed item).2 = calculateChecksum item) :
    processItem feed rs item =
      .ok { rs with progress := { rs.progress with skipped := rs.progress.skipped + 1 } } := by
  simp only [processItem]
  rw [if_pos ⟨hmatch, hsum⟩]

/-- C3 witness: a concrete catalog whose stored product carries exactly the
incoming item's fingerprint is left untouched, with one skip counted. -/
theorem c3_checksum_short_circuit_witness :
    processItem c3feed { db := c3db } c3item =
      .ok { db := c3db, cache := [], progress := { skipped := 1 } } := by
  have h := c3_checksum_short_circuit c3feed { db := c3db } c3item (by decide) (by decide)
  simpa using h

/-- C9: starting a run while one is already in progress returns the
conflict error with the store fully unchanged: no history row is written,
the feed status row is untouched, and no counters exist yet — the guard is
the first action of ImportEngine.Run. -/
theorem c9_conflict_rejected_before_mutation (feed : Feed) (trig : String) (items : List Raw)
    (stopAfter : Option Nat) (db : Catalog) :
    runImport feed trig items stopAfter true db = (none, some "import already running", db) ∧
    (runImport feed trig items stopAfter true db).2.2.historyRows = db.historyRows ∧
    (runImport feed trig items stopAfter true db).2.2.feedStatus = db.feedStatus ∧
    (runImport feed trig items stopAfter true db).1 = none :=
  ⟨rfl, rfl, rfl, rfl⟩

theorem processItem_ok_counts (feed : Feed) (rs : RunState) (item : FeedItem) (rs' : RunState)
    (h : processItem feed rs item = .ok rs') :
    rs'.progress.processed = rs.progress.processed ∧
    rs'.progress.created + rs'.progress.updated + rs'.progress.skipped + rs'.progress.errors =
      rs.progress.created + rs.progress.updated + rs.progress.skipped + rs.progress.errors + 1 := by
  simp only [processItem] at h
  split at h
  · injection h with h2
    subst h2
    simp
    omega
  · split at h
    · injection h with h2
      subst h2
      simp
      omega
    · injection h with h2
      subst h2
      simp
      omega

/-- C10: one non-aborted invocation of the per-item callback increments the
processed counter by exactly one and the sum of the created, updated,
skipped and errors counters by exactly one; consequently the invariant
processed = created + updated + skipped + errors is preserved across every
processed item. -/
theorem c10_counter_accounting (feed : Feed) (rs : RunState) (raw : Raw) :
    (processOne feed rs raw).progress.processed = rs.progress.processed + 1 ∧
    (processOne feed rs raw).progress.created + (processOne feed rs raw).progress.updated +
        (processOne feed rs raw).progress.skipped + (processOne feed rs raw).progress.errors =
      rs.progress.created + rs.progress.updated + rs.progress.skipped +
        rs.progress.errors + 1 ∧
    (rs.progress.processed =
        rs.progress.created + rs.progress.updated + rs.progress.skipped + rs.progress.errors →
      (processOne feed rs raw).progress.processed =
        (processOne feed rs raw).progress.created + (processOne feed rs raw).progress.updated +
          (processOne feed rs raw).progress.skipped + (processOne feed rs raw).progress.errors) := by
  have key : (processOne feed rs raw).progress.processed = rs.progress.processed + 1 ∧
      (processOne feed rs raw).progress.created + (processOne feed rs raw).progress.updated +
          (processOne feed rs raw).progress.skipped + (processOne feed rs raw).progress.errors =
        rs.progress.created + rs.progress.updated + rs.progress.skipped +
          rs.progress.errors + 1 := by
    simp only [processOne]
    cases hmi : mapItem feed raw with
    | none =>
      simp
      omega
    | some item =>
      by_cases ht : item.Title = ""
      · simp [ht]
        omega
      · by_cases hp : item.Price = 0
        · simp [ht, hp]
          omega
        · simp only [ht, hp, if_false, if_neg, reduceIte]
          cases hpi : processItem feed
              { rs with progress := { rs.progress with processed := rs.progress.processed + 1 } }
              item with
          | ok rs' =>
            have hc := processItem_ok_counts feed
              { rs with progress := { rs.progress with processed := rs.progress.processed + 1 } }
              item rs' hpi
            simp at hc
            simp [hc.1, hc.2]
          | error msg =>
            simp
            omega
  obtain ⟨k1, k2⟩ := key
  exact ⟨k1, k2, fun h => by omega⟩

/-- C10 witness: the invariant instantiated at the zeroed initial progress
and a concrete raw item. -/
theorem c10_counter_accounting_witness :
    (processOne c10feed { db := {} } c10raw).progress.processed =
      (processOne c10feed { db := {} } c10raw).progress.created +
        (processOne c10feed { db := {} } c10raw).progress.updated +
        (processOne c10feed { db := {} } c10raw).progress.skipped +
        (processOne c10feed { db := {} } c10raw).progress.errors :=
  (c10_counter_accounting c10feed { db := {} } c10raw).2.2 (by decide)

/-- C1: evaluation of a run at the failing input — a three-item feed whose
stop flag is observed after one item — terminates via completeImport: the
history row records status completed (never the declared cancelled status),
processed equals 1, the feed is marked active, and the sentinel error is not
reported as a run error (the error result is none), because Run only
excludes "cancelled" errors from failImport and then falls through to
completeImport. -/
theorem c1_cancelled_run_reports_completed :
    (runImport c1feed "manual" c1items (some 1) false {}).1.map ImportHistory.status =
      some ImportStatus.completed ∧
    (runImport c1feed "manual" c1items (some 1) false {}).1.map ImportHistory.processed =
      some 1 ∧
    (runImport c1feed "manual" c1items (some 1) false {}).2.1 = none ∧
    (runImport c1feed "manual" c1items (some 1) false {}).2.2.feedStatus = "active" ∧
    (runImport c1feed "manual" c1items (some 1) false {}).1.map ImportHistory.status ≠
      some ImportStatus.cancelled := by
  decide

/-- C2: processItem never reads feed.ImportMode.  A create_only feed whose
item matches an existing product with a different stored fingerprint
performs the update and counts it updated (price overwritten to 5), and an
update_only feed with an unmatched item creates a second product and counts
it created — both contradicting the declared mode semantics. -/
theorem c2_import_mode_not_enforced :
    ((processItem c2feedCreateOnly { db := c2db } c2item).map
        fun rs => (rs.progress.updated, rs.progress.skipped, rs.db.products.map Product.price)) =
      .ok (1, 0, [5]) ∧
    ((processItem c2feedUpdateOnly { db := c2db } c2newItem).map
        fun rs => (rs.progress.created, rs.progress.skipped, rs.db.products.length)) =
      .ok (1, 0, 2) := by
  decide

end Megashop
